import Mathlib

/-!
# gxorm: named engine registry over the xorm library

A shallow embedding of `gxorm/xorm.go`.  The package keeps one package-level
variable, `engineMap`, and otherwise only calls into libraries it does not
implement (`xorm`, `fmt`, `log`).  The embedding therefore has two parts:

* the program state: the map `engineMap` together with the chronological list
  of library calls the program has made so far (each with the value the library
  returned);
* the library: a parameter `Lib` giving the return value of every fallible
  library call as a function of the calls made so far, so that nothing is
  assumed about what `xorm` answers.

Every Go function becomes a function from the state before the call to its
return values and the state after the call.
-/

namespace Gxorm

/-! ## Values -/

/-- A Go `error` value that is not nil; `msg` is what its `Error()` method returns.  A nil
`error` is `none` of `Option GoError`. -/
structure GoError where
  msg : String
deriving DecidableEq, Repr

/-- Go `errors.New(text)`. -/
def errorsNew (text : String) : GoError := ⟨text⟩

/-- A non-nil `*xorm.Engine`, identified by its address. -/
structure Engine where
  addr : Nat
deriving DecidableEq, Repr

/-- A non-nil `*xorm.EngineGroup`, identified by its address. -/
structure EngineGroup where
  addr : Nat
deriving DecidableEq, Repr

/-- The struct `DbConf`.  Go `int` fields are integers: no arithmetic is done on them. -/
structure DbConf where
  Ip : String
  Port : Int
  User : String
  Password : String
  Database : String
  Charset : String
  Collation : String
  ParseTime : Bool
  Loc : String
  MaxIdleConns : Int
  MaxOpenConns : Int
  SqlCmd : Bool
  UsePool : Bool
  ShowExecTime : Bool
deriving DecidableEq, Repr

/-- The struct `EngineGroupOption`; `MaxLifetime` is a `time.Duration`, an `int64` of nanoseconds. -/
structure EngineGroupOption where
  MaxIdleConns : Int
  MaxOpenConns : Int
  SqlCmd : Bool
  ShowExecTime : Bool
  MaxLifetime : Int
deriving DecidableEq, Repr

/-! ## Library calls -/

/-- One call into a library, with its arguments and, where it has one, the value it returned.
A nil pointer argument is `none`. -/
inductive Event where
  | xormNewEngine (driverName dataSourceName : String) (ret : Except GoError Engine)
  | engineShowSQL (db : Engine) (enabled : Bool)
  | engineShowExecTime (db : Engine) (enabled : Bool)
  | engineSetMaxIdleConns (db : Engine) (conns : Int)
  | engineSetMaxOpenConns (db : Engine) (conns : Int)
  | engineClose (db : Engine) (ret : Option GoError)
  | logPrintln (args : List String)
  | xormNewEngineGroup (m : Option Engine) (s : List (Option Engine))
      (ret : Except GoError EngineGroup)
  | groupShowSQL (eg : EngineGroup) (enabled : Bool)
  | groupShowExecTime (eg : EngineGroup) (enabled : Bool)
  | groupSetMaxIdleConns (eg : EngineGroup) (conns : Int)
  | groupSetMaxOpenConns (eg : EngineGroup) (conns : Int)
  | groupSetConnMaxLifetime (eg : EngineGroup) (d : Int)

/-- What the libraries answer.  Each answer may depend on every call made before it. -/
structure Lib where
  /-- The result of `xorm.NewEngine(driverName, dataSourceName)`: an engine or an error. -/
  NewEngine : List Event → String → String → Except GoError Engine
  /-- The result of `(*xorm.Engine).Close()`: nil or an error. -/
  Close : List Event → Engine → Option GoError
  /-- The result of `xorm.NewEngineGroup(m, s)`: a group or an error. -/
  NewEngineGroup : List Event → Option Engine → List (Option Engine) → Except GoError EngineGroup

/-- The program state: the package variable `engineMap` and the library calls made so far,
oldest first.  The map is a list of entries with pairwise distinct names; the order of the
list is the order in which a `range` loop visits the entries, which Go leaves unspecified,
so a statement about every state is a statement about every visiting order. -/
structure State where
  engineMap : AList (fun _ : String => Engine)
  trace : List Event

/-- Record a library call. -/
def State.emit (s : State) (e : Event) : State :=
  { s with trace := s.trace ++ [e] }

/-! ## The fragment of `fmt.Sprintf` the package uses -/

/-- An operand of `fmt.Sprintf`. -/
inductive FmtArg where
  | str (s : String)
  | int (i : Int)
  | bool (b : Bool)

/-- The verb `%d` on an `int`: decimal digits, with a leading minus sign when negative. -/
def fmtInt : Int → String
  | Int.ofNat n => Nat.repr n
  | Int.negSucc n => "-" ++ Nat.repr (n + 1)

/-- The verb `%v` on a `bool`. -/
def fmtBool (b : Bool) : String :=
  if b then "true" else "false"

/-- The operand printed in its default format, as `%v` does. -/
def fmtValue : FmtArg → String
  | FmtArg.str s => s
  | FmtArg.int i => fmtInt i
  | FmtArg.bool b => fmtBool b

/-- The Go type name of an operand, used in the report of a bad verb. -/
def fmtTypeName : FmtArg → String
  | FmtArg.str _ => "string"
  | FmtArg.int _ => "int"
  | FmtArg.bool _ => "bool"

/-- One verb applied to one operand.  A verb that does not fit the operand's type is reported
as `%!verb(type=value)`, as `fmt` does. -/
def fmtVerb (verb : Char) (a : FmtArg) : String :=
  match verb, a with
  | 'v', a => fmtValue a
  | 's', FmtArg.str s => s
  | 'd', FmtArg.int i => fmtInt i
  | 't', FmtArg.bool b => fmtBool b
  | c, a => "%!" ++ String.singleton c ++ "(" ++ fmtTypeName a ++ "=" ++ fmtValue a ++ ")"

/-- The body of `fmt.Sprintf` for format strings made of literal text, `%%`, and verbs
without flags, width or precision.  A verb without an operand is reported as
`%!verb(MISSING)` and operands left over as `%!(EXTRA ...)`, as `fmt` does. -/
def sprintfAux : List Char → List FmtArg → String
  | [], [] => ""
  | [], a :: args =>
    "%!(EXTRA " ++ ", ".intercalate ((a :: args).map fun x => fmtTypeName x ++ "=" ++ fmtValue x)
      ++ ")"
  | '%' :: '%' :: rest, args => "%" ++ sprintfAux rest args
  | '%' :: c :: rest, a :: args => fmtVerb c a ++ sprintfAux rest args
  | '%' :: c :: rest, [] => "%!" ++ String.singleton c ++ "(MISSING)" ++ sprintfAux rest []
  | ['%'], _ => "%!(NOVERB)"
  | c :: rest, args => String.singleton c ++ sprintfAux rest args

/-- Go `fmt.Sprintf(format, args...)`. -/
def Sprintf (format : String) (args : List FmtArg) : String :=
  sprintfAux format.toList args

/-! ## `DbConf` methods -/

/-- The defaulting step at the start of `InitDbEngine` (the five `if` statements), which
writes through the receiver pointer. -/
def setDefaults (conf : DbConf) : DbConf :=
  let conf := if conf.Ip = "" then { conf with Ip := "127.0.0.1" } else conf
  let conf := if conf.Port = 0 then { conf with Port := 3306 } else conf
  let conf := if conf.Charset = "" then { conf with Charset := "utf8mb4" } else conf
  let conf := if conf.Collation = "" then { conf with Collation := "utf8mb4_unicode_ci" } else conf
  let conf := if conf.Loc = "" then { conf with Loc := "Local" } else conf
  conf

/-- The data source name `InitDbEngine` builds with `fmt.Sprintf`. -/
def dataSourceName (conf : DbConf) : String :=
  Sprintf "%s:%s@tcp(%s:%d)/%s?charset=%s&collation=%s&parseTime=%v&loc=%s"
    [FmtArg.str conf.User, FmtArg.str conf.Password, FmtArg.str conf.Ip, FmtArg.int conf.Port,
      FmtArg.str conf.Database, FmtArg.str conf.Charset, FmtArg.str conf.Collation,
      FmtArg.bool conf.ParseTime, FmtArg.str conf.Loc]

/-- The result of a method of `*DbConf` that returns `(*xorm.Engine, error)`: the returned
pair (an engine with a nil error, or a nil engine with an error), the receiver after the
call, and the state after the call. -/
structure EngineResult where
  ret : Except GoError Engine
  conf : DbConf
  state : State

/-- Go `(conf *DbConf) InitDbEngine()`. -/
def InitDbEngine (lib : Lib) (conf : DbConf) (s : State) : EngineResult :=
  let conf := setDefaults conf
  let dsn := dataSourceName conf
  let ret := lib.NewEngine s.trace "mysql" dsn
  let s := s.emit (Event.xormNewEngine "mysql" dsn ret)
  match ret with
  | Except.error err => ⟨Except.error err, conf, s⟩
  | Except.ok db => ⟨Except.ok db, conf, s⟩

/-- Go `(conf *DbConf) NewEngine()`. -/
def NewEngine (lib : Lib) (conf : DbConf) (s : State) : EngineResult :=
  match InitDbEngine lib conf s with
  | ⟨Except.error err, conf, s⟩ => ⟨Except.error err, conf, s⟩
  | ⟨Except.ok db, conf, s⟩ =>
    let s := if conf.SqlCmd then s.emit (Event.engineShowSQL db true) else s
    let s := if conf.ShowExecTime then s.emit (Event.engineShowExecTime db true) else s
    let s :=
      if conf.UsePool then
        (s.emit (Event.engineSetMaxIdleConns db conf.MaxIdleConns)).emit
          (Event.engineSetMaxOpenConns db conf.MaxOpenConns)
      else s
    ⟨Except.ok db, conf, s⟩

/-- The result of a method of `*DbConf` that returns an `error`: the error (`none` is nil),
the receiver after the call, and the state after the call. -/
structure ConfResult where
  err : Option GoError
  conf : DbConf
  state : State

/-- Go `(conf *DbConf) SetEngineName(name)`. -/
def SetEngineName (lib : Lib) (conf : DbConf) (name : String) (s : State) : ConfResult :=
  if name = "" then
    ⟨some (errorsNew "current engineGroup name is empty!"), conf, s⟩
  else
    match NewEngine lib conf s with
    | ⟨Except.error err, conf, s⟩ =>
      ⟨some (errorsNew ("current " ++ name ++ " db engine init error: " ++ err.msg)), conf, s⟩
    | ⟨Except.ok db, conf, s⟩ => ⟨none, conf, { s with engineMap := s.engineMap.insert name db }⟩

/-- Go `(conf *DbConf) ShortConnect()`. -/
def ShortConnect (lib : Lib) (conf : DbConf) (s : State) : EngineResult :=
  NewEngine lib { conf with UsePool := false } s

/-! ## The registry -/

/-- Go `GetEngine(name)`: the returned pair `(*xorm.Engine, error)` and the state after.
The source reads the map twice, once for the presence test and once for the value. -/
def GetEngine (name : String) (s : State) : Except GoError Engine × State :=
  match s.engineMap.lookup name with
  | some db => (Except.ok db, s)
  | none => (Except.error (errorsNew "get db obj failed!"), s)

/-- One pass through the body of the `for ... range engineMap` loop of `CloseAllDb`. -/
def closeAllBody (lib : Lib) (s : State) (entry : Sigma fun _ : String => Engine) : State :=
  let err := lib.Close s.trace entry.2
  let s := s.emit (Event.engineClose entry.2 err)
  match err with
  | some e => s.emit (Event.logPrintln ["close db error: ", e.msg])
  | none => { s with engineMap := s.engineMap.erase entry.1 }

/-- Go `CloseAllDb()`.  The loop ranges over the entries of `engineMap`; its body deletes at
most the entry it is visiting, so every entry present at the start is visited once. -/
def CloseAllDb (lib : Lib) (s : State) : State :=
  s.engineMap.entries.foldl (closeAllBody lib) s

/-- Go `CloseDbByName(name)`: the returned `error` and the state after.  The only `return`
inside the `if` block is the one taken when `Close` fails; after `delete` control leaves the
block and reaches the `return` at the end of the function. -/
def CloseDbByName (lib : Lib) (name : String) (s : State) : Option GoError × State :=
  match s.engineMap.lookup name with
  | some db =>
    let err := lib.Close s.trace db
    let s := s.emit (Event.engineClose db err)
    match err with
    | some e => (some e, s.emit (Event.logPrintln ["close db error: ", e.msg]))
    | none =>
      let s := { s with engineMap := s.engineMap.erase name }
      (some (errorsNew "current db engine not exist"), s)
  | none => (some (errorsNew "current db engine not exist"), s)

/-! ## Engine groups -/

/-- The result of a function that returns `(*xorm.EngineGroup, error)`: the returned pair
and the state after the call. -/
structure GroupResult where
  ret : Except GoError EngineGroup
  state : State

/-- Go `NewEngineGroup(masterEngine, slave1Engine...)`. -/
def NewEngineGroup (lib : Lib) (masterEngine : Option Engine) (slave1Engine : List (Option Engine))
    (s : State) : GroupResult :=
  let ret := lib.NewEngineGroup s.trace masterEngine slave1Engine
  let s := s.emit (Event.xormNewEngineGroup masterEngine slave1Engine ret)
  match ret with
  | Except.error err => ⟨Except.error err, s⟩
  | Except.ok engineGroup => ⟨Except.ok engineGroup, s⟩

/-- Go `NewEngineGroupWithOption(m, s, opt)`; `st` is the state before the call. -/
def NewEngineGroupWithOption (lib : Lib) (m : Option Engine) (s : List (Option Engine))
    (opt : EngineGroupOption) (st : State) : GroupResult :=
  match NewEngineGroup lib m s st with
  | ⟨Except.error err, st⟩ => ⟨Except.error err, st⟩
  | ⟨Except.ok eg, st⟩ =>
    let st := st.emit (Event.groupShowSQL eg opt.SqlCmd)
    let st := st.emit (Event.groupShowExecTime eg opt.ShowExecTime)
    let st := st.emit (Event.groupSetMaxIdleConns eg opt.MaxIdleConns)
    let st := st.emit (Event.groupSetMaxOpenConns eg opt.MaxOpenConns)
    let st :=
      if opt.MaxLifetime > 0 then st.emit (Event.groupSetConnMaxLifetime eg opt.MaxLifetime)
      else st
    ⟨Except.ok eg, st⟩

/-- The setter calls `NewEngine` makes on a fresh engine, in source order. -/
def engineSetterCalls (conf : DbConf) (db : Engine) : List Event :=
  (if conf.SqlCmd then [Event.engineShowSQL db true] else []) ++
  (if conf.ShowExecTime then [Event.engineShowExecTime db true] else []) ++
  (if conf.UsePool then
    [Event.engineSetMaxIdleConns db conf.MaxIdleConns,
      Event.engineSetMaxOpenConns db conf.MaxOpenConns]
  else [])

/-- The `Close` calls among a list of library calls, each with what it returned. -/
def closeCalls : List Event → List (Engine × Option GoError)
  | [] => []
  | Event.engineClose db ret :: rest => (db, ret) :: closeCalls rest
  | _ :: rest => closeCalls rest

/-- The library calls made during `CloseAllDb`, oldest first. -/
def closeAllCalls (lib : Lib) (s : State) : List Event :=
  (CloseAllDb lib s).trace.drop s.trace.length

/-- What each `Close` call made during `CloseAllDb` returned, in call order. -/
def closeAllOutcomes (lib : Lib) (s : State) : List (Option GoError) :=
  (closeCalls (closeAllCalls lib s)).map Prod.snd

/-! ## Sample library behaviour and states -/

/-- A library in which `xorm.NewEngine` rejects an empty user name and otherwise returns an
engine at a fresh address, `Close` fails on the engine at address 2 only, and
`xorm.NewEngineGroup` rejects a nil master. -/
def sampleLib : Lib where
  NewEngine := fun calls _ dsn =>
    if dsn.toList.head? = some ':' then Except.error (errorsNew "empty user")
    else Except.ok ⟨100 + calls.length⟩
  Close := fun _ db => if db.addr = 2 then some (errorsNew "bad connection") else none
  NewEngineGroup := fun calls m _ =>
    match m with
    | none => Except.error (errorsNew "nil master")
    | some _ => Except.ok ⟨200 + calls.length⟩

/-- A state with three registered engines and no library call made yet. -/
def sampleState : State where
  engineMap :=
    ((((∅ : AList fun _ : String => Engine).insert "db3" ⟨3⟩).insert "db2" ⟨2⟩).insert "db1" ⟨1⟩)
  trace := []

/-- A configuration with every defaulted field unset. -/
def sampleConf : DbConf where
  Ip := ""
  Port := 0
  User := "root"
  Password := "secret"
  Database := "test"
  Charset := ""
  Collation := ""
  ParseTime := true
  Loc := ""
  MaxIdleConns := 10
  MaxOpenConns := 100
  SqlCmd := true
  UsePool := true
  ShowExecTime := false

/-- Options with a positive connection lifetime (one second). -/
def sampleOption : EngineGroupOption where
  MaxIdleConns := 10
  MaxOpenConns := 100
  SqlCmd := false
  ShowExecTime := true
  MaxLifetime := 1000000000

end Gxorm

namespace Gxorm

/-! ## Configuration defaults and the data source name -/

/-- The format string of `InitDbEngine` expands to the operands in source order, joined by
the literal text between the verbs. -/
theorem dataSourceName_eq (c : DbConf) :
    dataSourceName c =
      c.User ++ ":" ++ c.Password ++ "@tcp(" ++ c.Ip ++ ":" ++ fmtInt c.Port ++ ")/" ++
        c.Database ++ "?charset=" ++ c.Charset ++ "&collation=" ++ c.Collation ++
        "&parseTime=" ++ (if c.ParseTime then "true" else "false") ++ "&loc=" ++ c.Loc := by
  simp [dataSourceName, Sprintf, sprintfAux, fmtVerb, fmtValue, fmtBool]
  apply String.ext
  simp only [String.data_append, String.singleton, String.push, List.append_assoc,
    List.nil_append, List.cons_append]

/-- Both exits of `InitDbEngine` return what `xorm.NewEngine` returned, after the defaulting
step and one recorded call. -/
theorem InitDbEngine_eq (lib : Lib) (conf : DbConf) (s : State) :
    InitDbEngine lib conf s =
      ⟨lib.NewEngine s.trace "mysql" (dataSourceName (setDefaults conf)), setDefaults conf,
        s.emit (Event.xormNewEngine "mysql" (dataSourceName (setDefaults conf))
          (lib.NewEngine s.trace "mysql" (dataSourceName (setDefaults conf))))⟩ := by
  unfold InitDbEngine
  cases h : lib.NewEngine s.trace "mysql" (dataSourceName (setDefaults conf)) <;> simp [h]

/-- The defaulting step in closed form: one conditional per defaulted field. -/
theorem setDefaults_eq (conf : DbConf) :
    setDefaults conf =
      { conf with
        Ip := if conf.Ip = "" then "127.0.0.1" else conf.Ip
        Port := if conf.Port = 0 then 3306 else conf.Port
        Charset := if conf.Charset = "" then "utf8mb4" else conf.Charset
        Collation := if conf.Collation = "" then "utf8mb4_unicode_ci" else conf.Collation
        Loc := if conf.Loc = "" then "Local" else conf.Loc } := by
  rcases conf with ⟨ip, port, user, pw, dbn, cs, co, pt, loc, mi, mo, sc, up, se⟩
  simp only [setDefaults]
  by_cases h1 : ip = "" <;> by_cases h2 : port = 0 <;> by_cases h3 : cs = "" <;>
    by_cases h4 : co = "" <;> by_cases h5 : loc = "" <;>
    simp only [h1, h2, h3, h4, h5, if_true, if_false]

/-- C8: the defaulting step of `InitDbEngine` replaces an empty `Ip` by "127.0.0.1", a zero
`Port` by 3306, an empty `Charset` by "utf8mb4", an empty `Collation` by
"utf8mb4_unicode_ci" and an empty `Loc` by "Local"; it keeps each of these fields when it
was set and keeps every other field; applying it twice is the same as applying it once; and
it is what `InitDbEngine` leaves in the receiver. -/
theorem setDefaults_spec (conf : DbConf) :
    (setDefaults conf).Ip = (if conf.Ip = "" then "127.0.0.1" else conf.Ip) ∧
    (setDefaults conf).Port = (if conf.Port = 0 then 3306 else conf.Port) ∧
    (setDefaults conf).Charset = (if conf.Charset = "" then "utf8mb4" else conf.Charset) ∧
    (setDefaults conf).Collation =
      (if conf.Collation = "" then "utf8mb4_unicode_ci" else conf.Collation) ∧
    (setDefaults conf).Loc = (if conf.Loc = "" then "Local" else conf.Loc) ∧
    (setDefaults conf).User = conf.User ∧
    (setDefaults conf).Password = conf.Password ∧
    (setDefaults conf).Database = conf.Database ∧
    (setDefaults conf).ParseTime = conf.ParseTime ∧
    (setDefaults conf).MaxIdleConns = conf.MaxIdleConns ∧
    (setDefaults conf).MaxOpenConns = conf.MaxOpenConns ∧
    (setDefaults conf).SqlCmd = conf.SqlCmd ∧
    (setDefaults conf).UsePool = conf.UsePool ∧
    (setDefaults conf).ShowExecTime = conf.ShowExecTime ∧
    setDefaults (setDefaults conf) = setDefaults conf ∧
    ∀ (lib : Lib) (s : State), (InitDbEngine lib conf s).conf = setDefaults conf := by
  refine ⟨?_, ?_, ?_, ?_, ?_, ?_, ?_, ?_, ?_, ?_, ?_, ?_, ?_, ?_, ?_, ?_⟩
  case refine_15 =>
    rw [setDefaults_eq (setDefaults conf), setDefaults_eq conf]
    rcases conf with ⟨ip, port, user, pw, dbn, cs, co, pt, loc, mi, mo, sc, up, se⟩
    by_cases h1 : ip = "" <;> by_cases h2 : port = 0 <;> by_cases h3 : cs = "" <;>
      by_cases h4 : co = "" <;> by_cases h5 : loc = "" <;>
      simp [h1, h2, h3, h4, h5]
  case refine_16 => intro lib s; rw [InitDbEngine_eq]
  all_goals rw [setDefaults_eq]

/-- C9: `InitDbEngine` makes exactly one library call, `xorm.NewEngine` with driver "mysql"
and the data source name User:Password@tcp(Ip:Port)/Database?charset=Charset
&collation=Collation&parseTime=ParseTime&loc=Loc (no line break), the port in decimal and
the flag as true or false, all field values taken after the defaulting step. -/
theorem InitDbEngine_dataSourceName (lib : Lib) (conf : DbConf) (s : State) :
    (InitDbEngine lib conf s).state.trace =
      s.trace ++ [Event.xormNewEngine "mysql"
        ((setDefaults conf).User ++ ":" ++ (setDefaults conf).Password ++ "@tcp(" ++
          (setDefaults conf).Ip ++ ":" ++ fmtInt (setDefaults conf).Port ++ ")/" ++
          (setDefaults conf).Database ++ "?charset=" ++ (setDefaults conf).Charset ++
          "&collation=" ++ (setDefaults conf).Collation ++ "&parseTime=" ++
          (if (setDefaults conf).ParseTime then "true" else "false") ++ "&loc=" ++
          (setDefaults conf).Loc)
        (InitDbEngine lib conf s).ret] := by
  rw [InitDbEngine_eq, ← dataSourceName_eq]; rfl

/-! ## Creating and registering engines -/

/-- When `xorm.NewEngine` fails, `NewEngine` returns its error after that one call. -/
theorem NewEngine_error (lib : Lib) (conf : DbConf) (s : State) (err : GoError)
    (h : lib.NewEngine s.trace "mysql" (dataSourceName (setDefaults conf)) = Except.error err) :
    NewEngine lib conf s =
      ⟨Except.error err, setDefaults conf,
        s.emit (Event.xormNewEngine "mysql" (dataSourceName (setDefaults conf))
          (Except.error err))⟩ := by
  unfold NewEngine
  rw [InitDbEngine_eq, h]

/-- When `xorm.NewEngine` succeeds, `NewEngine` returns the engine, leaves `engineMap` alone
and has made that call followed by the setter calls. -/
theorem NewEngine_ok (lib : Lib) (conf : DbConf) (s : State) (db : Engine)
    (h : lib.NewEngine s.trace "mysql" (dataSourceName (setDefaults conf)) = Except.ok db) :
    NewEngine lib conf s =
      ⟨Except.ok db, setDefaults conf,
        { engineMap := s.engineMap
          trace := s.trace ++
            (Event.xormNewEngine "mysql" (dataSourceName (setDefaults conf)) (Except.ok db) ::
              engineSetterCalls (setDefaults conf) db) }⟩ := by
  unfold NewEngine
  rw [InitDbEngine_eq, h]
  simp only [engineSetterCalls, State.emit]
  cases (setDefaults conf).SqlCmd <;> cases (setDefaults conf).ShowExecTime <;>
    cases (setDefaults conf).UsePool <;> simp

/-- No setter call of `NewEngine` is a `Close`. -/
theorem engineSetterCalls_not_close (conf : DbConf) (db old : Engine) (ret : Option GoError) :
    Event.engineClose old ret ∉ engineSetterCalls conf db := by
  unfold engineSetterCalls
  cases conf.SqlCmd <;> cases conf.ShowExecTime <;> cases conf.UsePool <;> simp

/-- The pair `NewEngine` returns is the pair `xorm.NewEngine` returned. -/
theorem NewEngine_ret (lib : Lib) (conf : DbConf) (s : State) :
    (NewEngine lib conf s).ret =
      lib.NewEngine s.trace "mysql" (dataSourceName (setDefaults conf)) := by
  cases h : lib.NewEngine s.trace "mysql" (dataSourceName (setDefaults conf)) with
  | error err => rw [NewEngine_error lib conf s err h]
  | ok db => rw [NewEngine_ok lib conf s db h]

/-- With a name that is not empty and a successful `NewEngine`, `SetEngineName` returns nil
and inserts the new engine. -/
theorem SetEngineName_ok (lib : Lib) (conf : DbConf) (name : String) (s : State) (db : Engine)
    (hname : name ≠ "") (h : (NewEngine lib conf s).ret = Except.ok db) :
    SetEngineName lib conf name s =
      ⟨none, setDefaults conf,
        { engineMap := s.engineMap.insert name db
          trace := s.trace ++
            (Event.xormNewEngine "mysql" (dataSourceName (setDefaults conf)) (Except.ok db) ::
              engineSetterCalls (setDefaults conf) db) }⟩ := by
  rw [NewEngine_ret] at h
  unfold SetEngineName
  rw [if_neg hname, NewEngine_ok lib conf s db h]

/-- With a name that is not empty and a failing `NewEngine`, `SetEngineName` returns an
error and leaves `engineMap` alone. -/
theorem SetEngineName_error (lib : Lib) (conf : DbConf) (name : String) (s : State)
    (err : GoError) (hname : name ≠ "") (h : (NewEngine lib conf s).ret = Except.error err) :
    (SetEngineName lib conf name s).err =
        some (errorsNew ("current " ++ name ++ " db engine init error: " ++ err.msg)) ∧
      (SetEngineName lib conf name s).state.engineMap = s.engineMap := by
  rw [NewEngine_ret] at h
  unfold SetEngineName
  rw [if_neg hname, NewEngine_error lib conf s err h]
  exact ⟨rfl, rfl⟩

/-- After erasing a key from a list without duplicate keys, no entry has that key. -/
theorem filter_key_kerase (name : String) (l : List (Sigma fun _ : String => Engine))
    (hl : l.NodupKeys) : (List.kerase name l).filter (fun e => e.1 = name) = [] := by
  rw [List.filter_eq_nil_iff]
  intro e he hkey
  have hk : e.1 ∈ (List.kerase name l).keys := List.mem_keys_of_mem he
  have heq : e.1 = name := by simpa using hkey
  rw [heq] at hk
  exact List.not_mem_keys_kerase name hl hk

/-- C5: `SetEngineName` with the empty name returns an error and changes nothing: the
receiver is as before, `engineMap` is as before (no entry is added, none under the empty
name) and no library call is made, so no engine is created. -/
theorem SetEngineName_empty (lib : Lib) (conf : DbConf) (s : State) :
    (SetEngineName lib conf "" s).err = some (errorsNew "current engineGroup name is empty!") ∧
    (SetEngineName lib conf "" s).state = s ∧
    (SetEngineName lib conf "" s).conf = conf ∧
    (SetEngineName lib conf "" s).state.engineMap.lookup "" = s.engineMap.lookup "" := by
  simp [SetEngineName]

/-- C7: for a name that is not empty and a configuration for which `NewEngine` returns an
engine, `SetEngineName` returns nil and stores that engine under the name: `GetEngine`
returns it afterwards, the map holds exactly one entry for the name (an earlier entry is
replaced), every other name maps to what it mapped to before, and the library calls made
are `xorm.NewEngine` and engine setters only, so `Close` is called on no engine, in
particular not on the one stored before. -/
theorem SetEngineName_stores (lib : Lib) (conf : DbConf) (name : String) (s : State)
    (db : Engine) (hname : name ≠ "") (hnew : (NewEngine lib conf s).ret = Except.ok db) :
    (SetEngineName lib conf name s).err = none ∧
    (GetEngine name (SetEngineName lib conf name s).state).1 = Except.ok db ∧
    (SetEngineName lib conf name s).state.engineMap.entries.filter (fun e => e.1 = name) =
      [⟨name, db⟩] ∧
    (∀ other : String, other ≠ name →
      (SetEngineName lib conf name s).state.engineMap.lookup other =
        s.engineMap.lookup other) ∧
    ∃ calls : List Event,
      (SetEngineName lib conf name s).state.trace = s.trace ++ calls ∧
      ∀ (old : Engine) (ret : Option GoError), Event.engineClose old ret ∉ calls := by
  rw [SetEngineName_ok lib conf name s db hname hnew]
  refine ⟨rfl, ?_, ?_, ?_, ⟨_, rfl, ?_⟩⟩
  · simp [GetEngine, AList.lookup_insert]
  · show (s.engineMap.insert name db).entries.filter (fun e => e.1 = name) = [⟨name, db⟩]
    rw [AList.insert_entries, List.filter_cons_of_pos (by simp),
      filter_key_kerase name _ s.engineMap.nodupKeys]
  · intro other ho
    exact AList.lookup_insert_ne ho
  · intro old ret hmem
    rcases List.mem_cons.mp hmem with h | h
    · cases h
    · exact engineSetterCalls_not_close _ _ _ _ h

/-- Witness for C7: registering "db1" again in the sample state, where it maps to the engine
at address 1, makes `GetEngine` return the new engine at address 100. -/
theorem SetEngineName_stores_witness :
    (GetEngine "db1" (SetEngineName sampleLib sampleConf "db1" sampleState).state).1 =
        Except.ok ⟨100⟩ ∧
      sampleState.engineMap.lookup "db1" = some ⟨1⟩ :=
  ⟨(SetEngineName_stores sampleLib sampleConf "db1" sampleState ⟨100⟩ (by decide) rfl).2.1, rfl⟩

/-- When `SetEngineName` returns nil, the name has an entry afterwards. -/
theorem SetEngineName_nil_lookup (lib : Lib) (conf : DbConf) (name : String) (s : State)
    (h : (SetEngineName lib conf name s).err = none) :
    ∃ db : Engine, (SetEngineName lib conf name s).state.engineMap.lookup name = some db := by
  by_cases hname : name = ""
  · simp [SetEngineName, hname] at h
  · cases hret : (NewEngine lib conf s).ret with
    | error err =>
      rw [(SetEngineName_error lib conf name s err hname hret).1] at h
      cases h
    | ok db =>
      rw [SetEngineName_ok lib conf name s db hname hret]
      exact ⟨db, AList.lookup_insert _⟩

/-- C6: `GetEngine` leaves the state as it was; when the name has an entry it returns the
stored engine and a nil error; when it has none it returns a nil engine and the error
"get db obj failed!".  In particular it succeeds on "db1" after `SetEngineName` on "db1"
returned nil, and fails on a name that has no entry. -/
theorem GetEngine_spec (name : String) (s : State) :
    (GetEngine name s).2 = s ∧
    (∀ db : Engine, s.engineMap.lookup name = some db →
      (GetEngine name s).1 = Except.ok db) ∧
    (s.engineMap.lookup name = none →
      (GetEngine name s).1 = Except.error (errorsNew "get db obj failed!")) ∧
    ∀ (lib : Lib) (conf : DbConf), (SetEngineName lib conf "db1" s).err = none →
      ∃ db : Engine,
        (GetEngine "db1" (SetEngineName lib conf "db1" s).state).1 = Except.ok db := by
  refine ⟨?_, ?_, ?_, ?_⟩
  · unfold GetEngine
    cases s.engineMap.lookup name <;> rfl
  · intro db h
    simp [GetEngine, h]
  · intro h
    simp [GetEngine, h]
  · intro lib conf h
    obtain ⟨db, hdb⟩ := SetEngineName_nil_lookup lib conf "db1" s h
    exact ⟨db, by simp [GetEngine, hdb]⟩

/-- Witness for C6: in the sample state "db2" is found and "missing" is not, and after a
successful `SetEngineName` on "db1" the name "db1" is found. -/
theorem GetEngine_spec_witness :
    (GetEngine "db2" sampleState).1 = Except.ok ⟨2⟩ ∧
    (GetEngine "missing" sampleState).1 = Except.error (errorsNew "get db obj failed!") ∧
    ∃ db : Engine,
      (GetEngine "db1" (SetEngineName sampleLib sampleConf "db1" sampleState).state).1 =
        Except.ok db :=
  ⟨(GetEngine_spec "db2" sampleState).2.1 ⟨2⟩ rfl,
    (GetEngine_spec "missing" sampleState).2.2.1 rfl,
    (GetEngine_spec "db1" sampleState).2.2.2 sampleLib sampleConf rfl⟩

/-! ## Closing one engine -/

/-- C2: when the name has an entry and `Close` succeeds on its engine, `CloseDbByName`
leaves no entry for the name: `GetEngine` on the name then fails with its not-found error,
a second `CloseDbByName` on the name returns the error "current db engine not exist"
without calling the library, and every other name maps to what it mapped to before. -/
theorem CloseDbByName_removes (lib : Lib) (name : String) (s : State) (db : Engine)
    (hentry : s.engineMap.lookup name = some db) (hclose : lib.Close s.trace db = none) :
    (CloseDbByName lib name s).2.engineMap.lookup name = none ∧
    (GetEngine name (CloseDbByName lib name s).2).1 =
      Except.error (errorsNew "get db obj failed!") ∧
    CloseDbByName lib name (CloseDbByName lib name s).2 =
      (some (errorsNew "current db engine not exist"), (CloseDbByName lib name s).2) ∧
    ∀ other : String, other ≠ name →
      (CloseDbByName lib name s).2.engineMap.lookup other = s.engineMap.lookup other := by
  have hs : (CloseDbByName lib name s).2 =
      { engineMap := s.engineMap.erase name
        trace := s.trace ++ [Event.engineClose db none] } := by
    simp [CloseDbByName, hentry, hclose, State.emit]
  rw [hs]
  refine ⟨AList.lookup_erase _ _, ?_, ?_, ?_⟩
  · simp [GetEngine, AList.lookup_erase]
  · simp [CloseDbByName, AList.lookup_erase]
  · intro other ho
    exact AList.lookup_erase_ne ho

/-- Witness for C2: closing "db1" in the sample state, where `Close` succeeds on its engine. -/
theorem CloseDbByName_removes_witness :
    (GetEngine "db1" (CloseDbByName sampleLib "db1" sampleState).2).1 =
        Except.error (errorsNew "get db obj failed!") ∧
      (CloseDbByName sampleLib "db1" sampleState).2.engineMap.lookup "db2" = some ⟨2⟩ :=
  ⟨(CloseDbByName_removes sampleLib "db1" sampleState ⟨1⟩ rfl rfl).2.1,
    ((CloseDbByName_removes sampleLib "db1" sampleState ⟨1⟩ rfl rfl).2.2.2 "db2"
      (by decide)).trans rfl⟩

/-- C3: when the name has an entry and `Close` on its engine fails with an error,
`CloseDbByName` returns exactly that error and leaves `engineMap` as it was, so the entry
is still there and `GetEngine` on the name still returns the same engine. -/
theorem CloseDbByName_close_fails (lib : Lib) (name : String) (s : State) (db : Engine)
    (e : GoError) (hentry : s.engineMap.lookup name = some db)
    (hclose : lib.Close s.trace db = some e) :
    (CloseDbByName lib name s).1 = some e ∧
    (CloseDbByName lib name s).2.engineMap = s.engineMap ∧
    (CloseDbByName lib name s).2.engineMap.lookup name = some db ∧
    (GetEngine name (CloseDbByName lib name s).2).1 = Except.ok db := by
  have hs : CloseDbByName lib name s =
      (some e,
        { engineMap := s.engineMap
          trace := s.trace ++ [Event.engineClose db (some e)] ++
            [Event.logPrintln ["close db error: ", e.msg]] }) := by
    simp [CloseDbByName, hentry, hclose, State.emit]
  rw [hs]
  refine ⟨rfl, rfl, hentry, ?_⟩
  simp [GetEngine, hentry]

/-- Witness for C3: closing "db2" in the sample state, where `Close` fails on its engine. -/
theorem CloseDbByName_close_fails_witness :
    (CloseDbByName sampleLib "db2" sampleState).1 = some (errorsNew "bad connection") ∧
      (GetEngine "db2" (CloseDbByName sampleLib "db2" sampleState).2).1 = Except.ok ⟨2⟩ :=
  ⟨(CloseDbByName_close_fails sampleLib "db2" sampleState ⟨2⟩ (errorsNew "bad connection")
      rfl rfl).1,
    (CloseDbByName_close_fails sampleLib "db2" sampleState ⟨2⟩ (errorsNew "bad connection")
      rfl rfl).2.2.2⟩

/-- C1 (the code departs from the claim): in the sample state "db1" has an entry and `Close`
succeeds on its engine, yet `CloseDbByName` returns the error "current db engine not exist"
after closing the engine and removing the entry. -/
theorem CloseDbByName_existing_returns_error :
    sampleState.engineMap.lookup "db1" = some ⟨1⟩ ∧
    sampleLib.Close sampleState.trace ⟨1⟩ = none ∧
    (CloseDbByName sampleLib "db1" sampleState).1 =
      some (errorsNew "current db engine not exist") ∧
    (CloseDbByName sampleLib "db1" sampleState).2.trace = [Event.engineClose ⟨1⟩ none] ∧
    (CloseDbByName sampleLib "db1" sampleState).2.engineMap.lookup "db1" = none :=
  ⟨rfl, rfl, rfl, rfl, rfl⟩

/-- No call of `CloseDbByName` returns nil: every path ends in a `return` of an error. -/
theorem CloseDbByName_never_nil (lib : Lib) (name : String) (s : State) :
    (CloseDbByName lib name s).1 ≠ none := by
  unfold CloseDbByName
  cases s.engineMap.lookup name with
  | none => simp
  | some db => cases h : lib.Close s.trace db <;> simp [h]

/-! ## Closing every engine -/

/-- In a list without duplicate keys, the key of an entry is not a key before it. -/
theorem not_mem_keys_of_nodupKeys_append (e : Sigma fun _ : String => Engine)
    (done l : List (Sigma fun _ : String => Engine)) (h : (done ++ e :: l).NodupKeys) :
    e.1 ∉ done.keys := by
  unfold List.NodupKeys at h
  rw [List.keys, List.map_append, List.map_cons] at h
  have h2 := (List.nodup_append.mp h).2.2
  intro hmem
  exact h2 hmem (List.mem_cons_self _ _)

/-- The loop body of `CloseAllDb` when `Close` succeeds: one call, and the entry is deleted. -/
theorem closeAllBody_none (lib : Lib) (st : State) (e : Sigma fun _ : String => Engine)
    (h : lib.Close st.trace e.2 = none) :
    closeAllBody lib st e =
      { engineMap := st.engineMap.erase e.1
        trace := st.trace ++ [Event.engineClose e.2 none] } := by
  simp [closeAllBody, h, State.emit]

/-- The loop body of `CloseAllDb` when `Close` fails: the call, one log line, and the map is
kept. -/
theorem closeAllBody_some (lib : Lib) (st : State) (e : Sigma fun _ : String => Engine)
    (err : GoError) (h : lib.Close st.trace e.2 = some err) :
    closeAllBody lib st e =
      { engineMap := st.engineMap
        trace := st.trace ++
          [Event.engineClose e.2 (some err), Event.logPrintln ["close db error: ", err.msg]] } := by
  simp [closeAllBody, h, State.emit]

/-- Loop invariant of `CloseAllDb`: with the entries `done` already visited and kept and the
entries `l` still to visit, the loop visits `l` in order, calls `Close` once per entry, and
ends with `done` followed by the entries of `l` on which `Close` failed. -/
theorem closeAll_fold (lib : Lib) :
    ∀ (l done : List (Sigma fun _ : String => Engine)) (st : State),
      st.engineMap.entries = done ++ l →
      ∃ (outcomes : List (Option GoError)) (calls : List Event),
        outcomes.length = l.length ∧
        (l.foldl (closeAllBody lib) st).trace = st.trace ++ calls ∧
        closeCalls calls = (l.map fun e => e.2).zip outcomes ∧
        (l.foldl (closeAllBody lib) st).engineMap.entries =
          done ++ ((l.zip outcomes).filter fun p => p.2.isSome).map Prod.fst ∧
        ∀ (pre post : List Event) (db : Engine) (ret : Option GoError),
          calls = pre ++ Event.engineClose db ret :: post →
            ret = lib.Close (st.trace ++ pre) db := by
  intro l
  induction l with
  | nil =>
    intro done st h
    refine ⟨[], [], rfl, by simp, rfl, by simpa using h, ?_⟩
    intro pre post db ret hsplit
    simp at hsplit
  | cons e l ih =>
    intro done st h
    cases hc : lib.Close st.trace e.2 with
    | none =>
      have hnd : (done ++ e :: l).NodupKeys := h ▸ st.engineMap.nodupKeys
      have hkey := not_mem_keys_of_nodupKeys_append e done l hnd
      have hbody := closeAllBody_none lib st e hc
      have hent : (closeAllBody lib st e).engineMap.entries = done ++ l := by
        rw [hbody]
        show List.kerase e.1 st.engineMap.entries = done ++ l
        rw [h, List.kerase_append_right hkey, List.kerase_cons_eq rfl]
      obtain ⟨outs, calls, hlen, htr, hcc, hents, hret⟩ :=
        ih done (closeAllBody lib st e) hent
      refine ⟨none :: outs, Event.engineClose e.2 none :: calls, by simp [hlen], ?_, ?_, ?_, ?_⟩
      · rw [List.foldl_cons, htr, hbody]
        simp
      · simp [closeCalls, hcc]
      · rw [List.foldl_cons, hents]
        simp
      · intro pre post db ret hsplit
        rcases pre with _ | ⟨x, pre⟩
        · simp only [List.nil_append, List.cons.injEq, Event.engineClose.injEq] at hsplit
          obtain ⟨⟨hdb, hr⟩, -⟩ := hsplit
          rw [← hdb, ← hr, List.append_nil, hc]
        · simp only [List.cons_append, List.cons.injEq] at hsplit
          obtain ⟨hx, hrest⟩ := hsplit
          have := hret pre post db ret hrest
          rw [hbody] at this
          rw [this, ← hx]
          simp
    | some err =>
      have hbody := closeAllBody_some lib st e err hc
      have hent : (closeAllBody lib st e).engineMap.entries = (done ++ [e]) ++ l := by
        rw [hbody]
        simpa using h
      obtain ⟨outs, calls, hlen, htr, hcc, hents, hret⟩ :=
        ih (done ++ [e]) (closeAllBody lib st e) hent
      refine ⟨some err :: outs,
        Event.engineClose e.2 (some err) :: Event.logPrintln ["close db error: ", err.msg] :: calls,
        by simp [hlen], ?_, ?_, ?_, ?_⟩
      · rw [List.foldl_cons, htr, hbody]
        simp
      · simp [closeCalls, hcc]
      · rw [List.foldl_cons, hents]
        simp
      · intro pre post db ret hsplit
        rcases pre with _ | ⟨x, _ | ⟨y, pre⟩⟩
        · simp only [List.nil_append, List.cons.injEq, Event.engineClose.injEq] at hsplit
          obtain ⟨⟨hdb, hr⟩, -⟩ := hsplit
          rw [← hdb, ← hr, List.append_nil, hc]
        · simp at hsplit
        · simp only [List.cons_append, List.cons.injEq] at hsplit
          obtain ⟨hx, hy, hrest⟩ := hsplit
          have := hret pre post db ret hrest
          rw [hbody] at this
          rw [this, ← hx, ← hy]
          simp

/-- The number of zipped entries with a failed outcome is the number of failed outcomes. -/
theorem length_filter_zip_isSome (l : List (Sigma fun _ : String => Engine))
    (outs : List (Option GoError)) (h : outs.length = l.length) :
    (((l.zip outs).filter fun p => p.2.isSome).map Prod.fst).length =
      outs.countP fun r => r.isSome := by
  have hmap : (l.zip outs).map Prod.snd = outs := List.map_snd_zip _ _ (le_of_eq h)
  rw [List.length_map, ← List.countP_eq_length_filter]
  conv_rhs => rw [← hmap]
  rw [List.countP_map]
  rfl

/-- C4: `CloseAllDb` calls `Close` once on the engine of every entry, in the order the loop
visits the entries, whatever the earlier calls returned, and each recorded return value is
what the library answered.  Afterwards `engineMap` holds exactly the entries, with the
engines they had, on which `Close` returned an error; each of them is still returned by
`GetEngine`.  In particular, when exactly one `Close` fails, all entries but one are
removed. -/
theorem CloseAllDb_spec (lib : Lib) (s : State) :
    (CloseAllDb lib s).trace = s.trace ++ closeAllCalls lib s ∧
    closeCalls (closeAllCalls lib s) =
      (s.engineMap.entries.map fun e => e.2).zip (closeAllOutcomes lib s) ∧
    (closeAllOutcomes lib s).length = s.engineMap.entries.length ∧
    (∀ (pre post : List Event) (db : Engine) (ret : Option GoError),
      closeAllCalls lib s = pre ++ Event.engineClose db ret :: post →
        ret = lib.Close (s.trace ++ pre) db) ∧
    (CloseAllDb lib s).engineMap.entries =
      ((s.engineMap.entries.zip (closeAllOutcomes lib s)).filter fun p => p.2.isSome).map
        Prod.fst ∧
    (∀ (name : String) (db : Engine) (e : GoError),
      ((⟨name, db⟩ : Sigma fun _ : String => Engine), some e) ∈
          s.engineMap.entries.zip (closeAllOutcomes lib s) →
        (GetEngine name (CloseAllDb lib s)).1 = Except.ok db) ∧
    ((closeAllOutcomes lib s).countP (fun r => r.isSome) = 1 →
      (CloseAllDb lib s).engineMap.entries.length + (s.engineMap.entries.length - 1) =
        s.engineMap.entries.length) := by
  obtain ⟨outs, calls, hlen, htr, hcc, hents, hret⟩ :=
    closeAll_fold lib s.engineMap.entries [] s rfl
  have hcalls : closeAllCalls lib s = calls := by
    unfold closeAllCalls CloseAllDb
    rw [htr, List.drop_left]
  have houts : closeAllOutcomes lib s = outs := by
    unfold closeAllOutcomes
    rw [hcalls, hcc]
    exact List.map_snd_zip _ _ (by simp [hlen])
  rw [hcalls, houts]
  have hents2 : (CloseAllDb lib s).engineMap.entries =
      ((s.engineMap.entries.zip outs).filter fun p => p.2.isSome).map Prod.fst := by
    simpa [CloseAllDb] using hents
  refine ⟨htr, hcc, hlen, hret, hents2, ?_, ?_⟩
  · intro name db e hmem
    have hin : (⟨name, db⟩ : Sigma fun _ : String => Engine) ∈
        (CloseAllDb lib s).engineMap.entries := by
      rw [hents2]
      exact List.mem_map.mpr ⟨_, List.mem_filter.mpr ⟨hmem, rfl⟩, rfl⟩
    have hlook : (CloseAllDb lib s).engineMap.lookup name = some db :=
      AList.mem_lookup_iff.mpr hin
    simp [GetEngine, hlook]
  · intro hone
    rw [hents2, length_filter_zip_isSome _ _ hlen, hone]
    have hpos : 1 ≤ s.engineMap.entries.length := by
      rw [← hlen, ← hone]
      exact List.countP_le_length _
    omega

/-- Witness for C4: in the sample state `Close` fails on the engine of "db2" only; "db2" is
still returned by `GetEngine` afterwards and two of the three entries are removed. -/
theorem CloseAllDb_spec_witness :
    (closeAllOutcomes sampleLib sampleState).countP (fun r => r.isSome) = 1 ∧
    (GetEngine "db2" (CloseAllDb sampleLib sampleState)).1 = Except.ok ⟨2⟩ ∧
    (CloseAllDb sampleLib sampleState).engineMap.entries.length + (3 - 1) = 3 :=
  ⟨rfl,
    (CloseAllDb_spec sampleLib sampleState).2.2.2.2.2.1 "db2" ⟨2⟩ (errorsNew "bad connection")
      (by decide),
    (CloseAllDb_spec sampleLib sampleState).2.2.2.2.2.2 rfl⟩

/-! ## Engine groups -/

/-- Both exits of `NewEngineGroup` return what `xorm.NewEngineGroup` returned, after that
one call. -/
theorem NewEngineGroup_eq (lib : Lib) (m : Option Engine) (s : List (Option Engine))
    (st : State) :
    NewEngineGroup lib m s st =
      ⟨lib.NewEngineGroup st.trace m s,
        st.emit (Event.xormNewEngineGroup m s (lib.NewEngineGroup st.trace m s))⟩ := by
  unfold NewEngineGroup
  cases h : lib.NewEngineGroup st.trace m s <;> simp [h]

/-- C10: when group construction succeeds, `NewEngineGroupWithOption` returns the group
after calling on it, in this order, `ShowSQL(SqlCmd)`, `ShowExecTime(ShowExecTime)`,
`SetMaxIdleConns(MaxIdleConns)` and `SetMaxOpenConns(MaxOpenConns)`, followed by
`SetConnMaxLifetime(MaxLifetime)` when `MaxLifetime` is positive and by nothing when it is
zero or negative.  When group construction fails, it returns the error and makes no call
besides the construction call.  `engineMap` is untouched either way. -/
theorem NewEngineGroupWithOption_spec (lib : Lib) (m : Option Engine)
    (s : List (Option Engine)) (opt : EngineGroupOption) (st : State) :
    (∀ eg : EngineGroup, (NewEngineGroup lib m s st).ret = Except.ok eg →
      (NewEngineGroupWithOption lib m s opt st).ret = Except.ok eg ∧
      (NewEngineGroupWithOption lib m s opt st).state.engineMap = st.engineMap ∧
      (0 < opt.MaxLifetime →
        (NewEngineGroupWithOption lib m s opt st).state.trace =
          (NewEngineGroup lib m s st).state.trace ++
            [Event.groupShowSQL eg opt.SqlCmd, Event.groupShowExecTime eg opt.ShowExecTime,
              Event.groupSetMaxIdleConns eg opt.MaxIdleConns,
              Event.groupSetMaxOpenConns eg opt.MaxOpenConns,
              Event.groupSetConnMaxLifetime eg opt.MaxLifetime]) ∧
      (opt.MaxLifetime ≤ 0 →
        (NewEngineGroupWithOption lib m s opt st).state.trace =
          (NewEngineGroup lib m s st).state.trace ++
            [Event.groupShowSQL eg opt.SqlCmd, Event.groupShowExecTime eg opt.ShowExecTime,
              Event.groupSetMaxIdleConns eg opt.MaxIdleConns,
              Event.groupSetMaxOpenConns eg opt.MaxOpenConns])) ∧
    (∀ err : GoError, (NewEngineGroup lib m s st).ret = Except.error err →
      (NewEngineGroupWithOption lib m s opt st).ret = Except.error err ∧
      (NewEngineGroupWithOption lib m s opt st).state = (NewEngineGroup lib m s st).state) ∧
    (NewEngineGroup lib m s st).state.trace =
      st.trace ++ [Event.xormNewEngineGroup m s (NewEngineGroup lib m s st).ret] := by
  refine ⟨?_, ?_, ?_⟩
  · intro eg h
    rw [NewEngineGroup_eq] at h
    simp only at h
    unfold NewEngineGroupWithOption
    rw [NewEngineGroup_eq, h]
    refine ⟨rfl, ?_, ?_, ?_⟩
    · by_cases hpos : opt.MaxLifetime > 0 <;> simp [hpos, State.emit]
    · intro hpos
      simp [hpos, State.emit]
    · intro hle
      simp [not_lt.mpr hle, State.emit]
  · intro err h
    rw [NewEngineGroup_eq] at h
    simp only at h
    unfold NewEngineGroupWithOption
    rw [NewEngineGroup_eq, h]
    exact ⟨rfl, rfl⟩
  · rw [NewEngineGroup_eq]
    rfl

/-- Witness for C10: with a master and a positive lifetime the lifetime setter is the last
call; with a master and a zero lifetime it is not called; with a nil master the error of
the construction is returned. -/
theorem NewEngineGroupWithOption_spec_witness :
    (NewEngineGroupWithOption sampleLib (some ⟨1⟩) [some ⟨2⟩] sampleOption sampleState).state.trace =
      [Event.xormNewEngineGroup (some ⟨1⟩) [some ⟨2⟩] (Except.ok ⟨200⟩)] ++
        [Event.groupShowSQL ⟨200⟩ false, Event.groupShowExecTime ⟨200⟩ true,
          Event.groupSetMaxIdleConns ⟨200⟩ 10, Event.groupSetMaxOpenConns ⟨200⟩ 100,
          Event.groupSetConnMaxLifetime ⟨200⟩ 1000000000] ∧
    (NewEngineGroupWithOption sampleLib (some ⟨1⟩) [] { sampleOption with MaxLifetime := 0 }
        sampleState).state.trace =
      [Event.xormNewEngineGroup (some ⟨1⟩) [] (Except.ok ⟨200⟩)] ++
        [Event.groupShowSQL ⟨200⟩ false, Event.groupShowExecTime ⟨200⟩ true,
          Event.groupSetMaxIdleConns ⟨200⟩ 10, Event.groupSetMaxOpenConns ⟨200⟩ 100] ∧
    (NewEngineGroupWithOption sampleLib none [] sampleOption sampleState).ret =
      Except.error (errorsNew "nil master") :=
  ⟨((NewEngineGroupWithOption_spec sampleLib (some ⟨1⟩) [some ⟨2⟩] sampleOption sampleState).1
      ⟨200⟩ rfl).2.2.1 (by decide),
    ((NewEngineGroupWithOption_spec sampleLib (some ⟨1⟩) [] { sampleOption with MaxLifetime := 0 }
      sampleState).1 ⟨200⟩ rfl).2.2.2 (by decide),
    ((NewEngineGroupWithOption_spec sampleLib none [] sampleOption sampleState).2.1
      (errorsNew "nil master") rfl).1⟩

end Gxorm
